import Mathlib

/-!
Verification of the miband heart-rate RESTful bridge (src/src/main.rs).

The development shallowly embeds the pure content of the program:

* the heart-rate measurement decoder that lives in the notification loop of
  `handle_device` (main.rs lines 236-248);
* the notification-consuming session loop of `handle_device` (lines 235-271);
* the retry loop of `start_bluetooth_monitor` (lines 179-206), driven by a
  script of environment events;
* the query endpoint `get_heart_rate` (lines 79-94) together with the JSON
  shape serde derives for `HeartRateData`;
* the WebSocket attach path of `ws_handler` (lines 104-113) and its
  forwarding task;
* the shared reading store and its single kind of write (lines 41 and
  262-265).

Bytes coming off the BLE notification are `u8` values; they are modelled as
`Nat` and theorems that depend on the 8-bit range carry the explicit
hypothesis that each byte is below 256.
-/

/-- The `HeartRateData` struct of main.rs (lines 16-20): `value : u16`,
`sensor_contact_detected : Option<bool>`, `timestamp : u64`.  The machine
integers are modelled as `Nat`; the decoder theorems track the `u16` range
explicitly. -/
structure HeartRateData where
  value : Nat
  sensor_contact_detected : Option Bool
  timestamp : Nat
deriving DecidableEq, Repr

/-- Sensor-contact extraction of main.rs lines 244-248: `None` unless bit 2
of the flags byte is set, otherwise the boolean value of bit 1. -/
def sensorContact (flag : Nat) : Option Bool :=
  if flag &&& 0b00100 != 0 then some (flag &&& 0b00010 != 0) else none

/-- The measurement decoder embedded from the body of the notification loop
in `handle_device` (main.rs lines 236-248).  Byte 0 is the flags byte
(missing: error "No flag").  The value starts as byte 1 (missing: error
"No heart rate u8"); when bit 0 of the flags is set, byte 2 shifted left by
8 is or-ed in (missing: error "No heart rate u16").  On success it returns
the value together with the sensor-contact field. -/
def decodeMeasurement (heart_rate : List Nat) : Except String (Nat × Option Bool) :=
  match heart_rate[0]? with
  | none => Except.error "No flag"
  | some flag =>
    match heart_rate[1]? with
    | none => Except.error "No heart rate u8"
    | some b1 =>
      if flag &&& 0b00001 != 0 then
        match heart_rate[2]? with
        | none => Except.error "No heart rate u16"
        | some b2 => Except.ok (b1 ||| (b2 <<< 8), sensorContact flag)
      else
        Except.ok (b1, sensorContact flag)

-- Scenario A of the spec: bytes 0x00 0x46 decode to value 70, contact none.
example : decodeMeasurement [0x00, 0x46] = Except.ok (70, none) := rfl

-- Scenario B: bytes 0x06 0x3C decode to value 60, contact some true.
example : decodeMeasurement [0x06, 0x3C] = Except.ok (60, some true) := rfl

-- Scenario C: bytes 0x05 0xF4 0x01 decode to value 500, contact some false.
example : decodeMeasurement [0x05, 0xF4, 0x01] = Except.ok (500, some false) := rfl

/-- C1: with flags bit 0 clear and at least two bytes the decoded value is
byte 1; with flags bit 0 set and at least three bytes it is byte 1 or-ed
with byte 2 shifted left by 8. -/
theorem decode_value_formula (bytes : List Nat) :
    (bytes.getD 0 0 &&& 0b00001 = 0 → 2 ≤ bytes.length →
      decodeMeasurement bytes =
        Except.ok (bytes.getD 1 0, sensorContact (bytes.getD 0 0)))
  ∧ (bytes.getD 0 0 &&& 0b00001 ≠ 0 → 3 ≤ bytes.length →
      decodeMeasurement bytes =
        Except.ok (bytes.getD 1 0 ||| (bytes.getD 2 0 <<< 8),
          sensorContact (bytes.getD 0 0))) := by
  match bytes with
  | [] => exact ⟨fun _ h => by simp at h, fun _ h => by simp at h⟩
  | [f] => exact ⟨fun _ h => by simp at h, fun _ h => by simp at h⟩
  | f :: b1 :: rest =>
    constructor
    · intro h0 _
      simp only [List.getD_cons_zero] at h0
      have hb : (f &&& 0b00001 != 0) = false := by rw [h0]; decide
      simp only [decodeMeasurement, List.getElem?_cons_zero, List.getElem?_cons_succ,
        hb, Bool.false_eq_true, if_false, List.getD_cons_zero, List.getD_cons_succ]
    · intro h0 hlen
      simp only [List.getD_cons_zero] at h0
      have hb : (f &&& 0b00001 != 0) = true := bne_iff_ne.mpr h0
      match rest with
      | [] => simp at hlen
      | b2 :: rest2 =>
        simp only [decodeMeasurement, List.getElem?_cons_zero, List.getElem?_cons_succ,
          hb, eq_self_iff_true, if_true, List.getD_cons_zero, List.getD_cons_succ]

/-- C1 witness: the theorem applied to the concrete 8-bit input 0x00 0x46
and the concrete 16-bit input 0x05 0xF4 0x01. -/
theorem decode_value_formula_witness :
    decodeMeasurement [0x00, 0x46] = Except.ok (70, none)
  ∧ decodeMeasurement [0x05, 0xF4, 0x01] = Except.ok (500, some false) :=
  ⟨(decode_value_formula [0x00, 0x46]).1 (by decide) (by decide),
   (decode_value_formula [0x05, 0xF4, 0x01]).2 (by decide) (by decide)⟩

/-- Helper: whenever the decoder succeeds, the sensor-contact component is
exactly `sensorContact` of the flags byte (main.rs lines 244-248 run on
every successful decode). -/
theorem decode_ok_contact (bytes : List Nat) (v : Nat) (sc : Option Bool)
    (h : decodeMeasurement bytes = Except.ok (v, sc)) :
    sc = sensorContact (bytes.getD 0 0) := by
  match bytes with
  | [] => exact absurd h (by simp [decodeMeasurement])
  | [f] => exact absurd h (by simp [decodeMeasurement])
  | f :: b1 :: rest =>
    simp only [List.getD_cons_zero]
    by_cases hb : (f &&& 0b00001 != 0) = true
    · match rest with
      | [] =>
        exact absurd h (by simp only [decodeMeasurement, List.getElem?_cons_zero,
          List.getElem?_cons_succ, hb, if_true]; simp)
      | b2 :: rest2 =>
        simp only [decodeMeasurement, List.getElem?_cons_zero, List.getElem?_cons_succ,
          hb, if_true, Except.ok.injEq, Prod.mk.injEq] at h
        exact h.2.symm
    · simp only [Bool.not_eq_true] at hb
      simp only [decodeMeasurement, List.getElem?_cons_zero, List.getElem?_cons_succ,
        hb, Bool.false_eq_true, if_false, Except.ok.injEq, Prod.mk.injEq] at h
      exact h.2.symm

/-- C2: on every successful decode, the sensor-contact field is none when
bit 2 of the flags byte is clear, no matter what bit 1 holds, and is the
boolean value of bit 1 when bit 2 is set. -/
theorem decode_sensor_contact (bytes : List Nat) (v : Nat) (sc : Option Bool)
    (h : decodeMeasurement bytes = Except.ok (v, sc)) :
    (bytes.getD 0 0 &&& 0b00100 = 0 → sc = none)
  ∧ (bytes.getD 0 0 &&& 0b00100 ≠ 0 →
      sc = some (bytes.getD 0 0 &&& 0b00010 != 0)) := by
  have hsc := decode_ok_contact bytes v sc h
  constructor
  · intro h4
    have hb : (bytes.getD 0 0 &&& 0b00100 != 0) = false := by rw [h4]; decide
    rw [hsc, sensorContact, hb]
    simp
  · intro h4
    have hb : (bytes.getD 0 0 &&& 0b00100 != 0) = true := bne_iff_ne.mpr h4
    rw [hsc, sensorContact, hb]
    simp

/-- C2 witness: the theorem applied to the decode of 0x06 0x3C, whose flags
have bit 2 set and bit 1 set. -/
theorem decode_sensor_contact_witness :
    some true = some ((0x06 : Nat) &&& 0b00010 != 0) :=
  (decode_sensor_contact [0x06, 0x3C] 60 (some true) rfl).2 (by decide)

/-- C6: the decoder fails with an error for every input shorter than its
flags require: fewer than two bytes, or flags bit 0 set with fewer than
three bytes. -/
theorem decode_fails_when_short (bytes : List Nat)
    (h : bytes.length < 2 ∨ (bytes.getD 0 0 &&& 0b00001 ≠ 0 ∧ bytes.length < 3)) :
    ∃ e, decodeMeasurement bytes = Except.error e := by
  match bytes with
  | [] => exact ⟨"No flag", rfl⟩
  | [f] => exact ⟨"No heart rate u8", rfl⟩
  | f :: b1 :: rest =>
    rcases h with hlen | ⟨hbit, hlen⟩
    · simp only [List.length_cons] at hlen
      omega
    · simp only [List.getD_cons_zero] at hbit
      have hb : (f &&& 0b00001 != 0) = true := bne_iff_ne.mpr hbit
      match rest with
      | [] =>
        refine ⟨"No heart rate u16", ?_⟩
        simp only [decodeMeasurement, List.getElem?_cons_zero, List.getElem?_cons_succ,
          hb, if_true]
        rfl
      | b2 :: rest2 =>
        simp only [List.length_cons] at hlen
        omega

/-- C6 witness: the theorem applied to a 1-byte input with bit 0 clear and
to a 2-byte input with bit 0 set. -/
theorem decode_fails_when_short_witness :
    (∃ e, decodeMeasurement [0x00] = Except.error e)
  ∧ (∃ e, decodeMeasurement [0x01, 0x46] = Except.error e) :=
  ⟨decode_fails_when_short [0x00] (by decide),
   decode_fails_when_short [0x01, 0x46] (by decide)⟩

/-- C9 counterexample: the 3-byte input with flags 0x01 and high byte 0xFF
decodes successfully to the value 65280, which is far above 511; the wire
format carries a full 16-bit value, not a 9-bit one. -/
theorem decode_value_above_511 :
    decodeMeasurement [0x01, 0x00, 0xFF] = Except.ok (65280, none)
  ∧ ¬ (65280 ≤ 511) :=
  ⟨rfl, by decide⟩

/-- C9 amended: for byte inputs (each element below 256), every successfully
decoded value fits in 16 bits, that is, lies in the range 0 to 65535. -/
theorem decode_value_lt_65536 (bytes : List Nat) (hb : ∀ b ∈ bytes, b < 256)
    (v : Nat) (sc : Option Bool) (h : decodeMeasurement bytes = Except.ok (v, sc)) :
    v < 65536 := by
  match bytes with
  | [] => exact absurd h (by simp [decodeMeasurement])
  | [f] => exact absurd h (by simp [decodeMeasurement])
  | f :: b1 :: rest =>
    have hb1 : b1 < 256 := hb b1 (by simp)
    by_cases hflag : (f &&& 0b00001 != 0) = true
    · match rest with
      | [] =>
        exact absurd h (by simp only [decodeMeasurement, List.getElem?_cons_zero,
          List.getElem?_cons_succ, hflag, if_true]; simp)
      | b2 :: rest2 =>
        have hb2 : b2 < 256 := hb b2 (by simp)
        simp only [decodeMeasurement, List.getElem?_cons_zero, List.getElem?_cons_succ,
          hflag, if_true, Except.ok.injEq, Prod.mk.injEq] at h
        have hlt : b2 <<< 8 ||| b1 < 2 ^ 16 :=
          Nat.append_lt (show b1 < 2 ^ 8 by omega) (show b2 < 2 ^ 8 by omega)
        have : v = b1 ||| b2 <<< 8 := h.1.symm
        rw [this, Nat.lor_comm]
        exact hlt
    · simp only [Bool.not_eq_true] at hflag
      simp only [decodeMeasurement, List.getElem?_cons_zero, List.getElem?_cons_succ,
        hflag, Bool.false_eq_true, if_false, Except.ok.injEq, Prod.mk.injEq] at h
      omega

/-- C9 amended witness: the theorem applied to the concrete input
0x01 0x00 0xFF, all of whose bytes are below 256. -/
theorem decode_value_lt_65536_witness : (65280 : Nat) < 65536 :=
  decode_value_lt_65536 [0x01, 0x00, 0xFF] (by decide) 65280 none rfl

/-- How one run of the notification loop of `handle_device` can end
(main.rs lines 235-271): `ok` when the notification stream is exhausted and
the function returns Ok, `errMsg e` when a failing byte lookup propagates
the error `e` out of `handle_device` through the question-mark operator. -/
inductive SessionEnd where
  | ok : SessionEnd
  | errMsg : String → SessionEnd
deriving DecidableEq, Repr

/-- The notification loop of `handle_device` (main.rs lines 235-269) run on
a list of notification payloads: each payload is decoded; a decode error is
returned immediately (the question-mark operator ends the function, so no
later notification is processed), while each successful decode emits its
reading and the loop continues.  The result is the list of emitted readings
together with how the session ended. -/
def streamSession : List (List Nat) → List (Nat × Option Bool) × SessionEnd
  | [] => ([], SessionEnd.ok)
  | n :: rest =>
    match decodeMeasurement n with
    | Except.error e => ([], SessionEnd.errMsg e)
    | Except.ok r =>
      let (rs, res) := streamSession rest
      (r :: rs, res)

/-- C3 counterexample: a malformed 1-byte notification followed by a
well-formed one.  The claim predicts the malformed item is skipped and the
session streams the following reading of 70; the code instead ends the
session with the error of the malformed item and never reaches the second
notification. -/
theorem session_killed_by_malformed :
    streamSession [[0x00], [0x00, 0x46]] = ([], SessionEnd.errMsg "No heart rate u8")
  ∧ streamSession [[0x00], [0x00, 0x46]] ≠ ([(70, none)], SessionEnd.ok) :=
  ⟨rfl, by decide⟩

/-- Helper: a notification that decodes successfully emits its reading and
the session loop continues on the remaining notifications. -/
theorem streamSession_cons_ok (m : List Nat) (r : Nat × Option Bool)
    (t : List (List Nat)) (h : decodeMeasurement m = Except.ok r) :
    streamSession (m :: t) = (r :: (streamSession t).1, (streamSession t).2) := by
  rcases ht : streamSession t with ⟨rs, res⟩
  simp [streamSession, h, ht]

/-- C3 amended: the first malformed notification terminates the Device
Session with its decode error; exactly the readings decoded before it are
emitted, and no later notification is processed.  The outer loop of
`start_bluetooth_monitor` then retries after the backoff. -/
theorem session_ends_at_first_malformed (pre : List (List Nat)) (n : List Nat)
    (rest : List (List Nat)) (hpre : ∀ m ∈ pre, (decodeMeasurement m).isOk = true)
    (e : String) (hn : decodeMeasurement n = Except.error e) :
    streamSession (pre ++ n :: rest)
      = (pre.filterMap (fun m => (decodeMeasurement m).toOption),
         SessionEnd.errMsg e) := by
  induction pre with
  | nil => simp [streamSession, hn]
  | cons m pre2 ih =>
    have hm : (decodeMeasurement m).isOk = true := hpre m (by simp)
    match hdm : decodeMeasurement m with
    | Except.error e2 =>
      rw [hdm] at hm
      exact Bool.noConfusion hm
    | Except.ok r =>
      have ih2 := ih (fun m2 hm2 => hpre m2 (by simp [hm2]))
      rw [List.cons_append, streamSession_cons_ok m r _ hdm, ih2]
      simp [List.filterMap_cons, hdm, Except.toOption]

/-- C3 amended witness: a well-formed notification, then a malformed one,
then another well-formed one: only the first reading is emitted and the
session ends with the error of the malformed notification. -/
theorem session_ends_at_first_malformed_witness :
    streamSession [[0x00, 0x3C], [0x01, 0x46], [0x00, 0x50]]
      = ([(60, none)], SessionEnd.errMsg "No heart rate u16") :=
  session_ends_at_first_malformed [[0x00, 0x3C]] [0x01, 0x46] [[0x00, 0x50]]
    (by decide) "No heart rate u16" rfl

/-- The fixed backoff of main.rs line 204: `Duration::from_secs(5)`. -/
def BACKOFF_SECS : Nat := 5

/-- One pass of the environment through the loop body of
`start_bluetooth_monitor` (main.rs lines 179-206):
`locateFail e` means one of the locate-phase calls failed with `e` —
`connected_devices_with_services` returned an error, `discover_devices`
returned an error, the scan ended with no device ("No device found"), or
the scanned item was an error; `session r` means a device was located and
`handle_device` returned `r`. -/
inductive IterEvent where
  | locateFail : String → IterEvent
  | session : Except String Unit → IterEvent

/-- The retry loop of `start_bluetooth_monitor` (main.rs lines 179-206) run
on a script of iteration events.  Returns the per-iteration sleep amounts
in seconds (`none` when the loop went straight to the next iteration) and
`some e` when the loop was exited: every locate-phase failure is propagated
by the question-mark operator out of the function, ending the monitor task;
a `handle_device` error is printed and followed by a 5-second sleep, after
which the loop continues; a normal `handle_device` return continues the
loop at once.  An exhausted script with the loop still running yields
`none` in the second component. -/
def runMonitor : List IterEvent → List (Option Nat) × Option String
  | [] => ([], none)
  | IterEvent.locateFail e :: _ => ([], some e)
  | IterEvent.session r :: rest =>
    let slept : Option Nat :=
      match r with
      | Except.error _ => some BACKOFF_SECS
      | Except.ok _ => none
    let (ss, t) := runMonitor rest
    (slept :: ss, t)

/-- C4 counterexample: when the discovery scan yields no device, the
resulting "No device found" error is not retried; it propagates out of
`start_bluetooth_monitor` and the acquisition task terminates. -/
theorem monitor_dies_on_no_device :
    runMonitor [IterEvent.locateFail "No device found"] = ([], some "No device found")
  ∧ (runMonitor [IterEvent.locateFail "No device found"]).2 ≠ none :=
  ⟨rfl, by decide⟩

/-- C4 amended: an error returned by `handle_device` (connection, service
or characteristic discovery, malformed measurement) is recovered locally:
the loop sleeps the 5-second backoff and proceeds with the remaining
iterations; a locate-phase failure, including "No device found", exits the
loop and terminates the acquisition task with that error. -/
theorem monitor_retries_session_errors (e : String) (rest : List IterEvent) :
    runMonitor (IterEvent.session (Except.error e) :: rest)
      = (some BACKOFF_SECS :: (runMonitor rest).1, (runMonitor rest).2)
  ∧ runMonitor (IterEvent.locateFail e :: rest) = ([], some e) := by
  constructor
  · rcases h : runMonitor rest with ⟨ss, t⟩
    simp [runMonitor, h]
  · rfl

/-- C5 counterexample: a session that ends normally (notification stream
exhausted, `handle_device` returns Ok) is followed by no backoff at all;
the loop re-enters the next iteration immediately. -/
theorem no_backoff_after_normal_end :
    (runMonitor [IterEvent.session (Except.ok ())]).1 = [none]
  ∧ (runMonitor [IterEvent.session (Except.ok ())]).1 ≠ [some BACKOFF_SECS] :=
  ⟨rfl, by decide⟩

/-- C5 amended: the 5-second backoff precedes the next iteration exactly
when the Device Session ended with an error; after a normal session
termination the next iteration begins with no wait. -/
theorem backoff_exactly_on_session_error (r : Except String Unit)
    (rest : List IterEvent) :
    (runMonitor (IterEvent.session r :: rest)).1
      = (match r with
         | Except.error _ => some BACKOFF_SECS
         | Except.ok _ => none) :: (runMonitor rest).1 := by
  rcases h : runMonitor rest with ⟨ss, t⟩
  cases r <;> simp [runMonitor, h]

/-- The initial value of the shared reading store, main.rs line 41:
`Arc::new(RwLock::new(None))`. -/
def initialStore : Option HeartRateData := none

/-- The only write the program ever performs on the shared reading store,
main.rs lines 262-265: the slot is overwritten wholesale with the freshly
decoded reading. -/
def writeReading (_state : Option HeartRateData) (hr : HeartRateData) :
    Option HeartRateData :=
  some hr

/-- A sequence of store writes applied in order. -/
def applyWrites (s : Option HeartRateData) : List HeartRateData → Option HeartRateData
  | [] => s
  | hr :: rest => applyWrites (writeReading s hr) rest

/-- C10: the store starts empty, every write fills it, and once the store
is nonempty no sequence of further writes can empty it again. -/
theorem store_stays_nonempty :
    initialStore = none
  ∧ (∀ (s : Option HeartRateData) (hr : HeartRateData),
      (writeReading s hr).isSome = true)
  ∧ ∀ (s : Option HeartRateData) (ws : List HeartRateData),
      s.isSome = true → (applyWrites s ws).isSome = true := by
  refine ⟨rfl, fun s hr => rfl, fun s ws => ?_⟩
  induction ws generalizing s with
  | nil => exact fun h => h
  | cons hr rest ih => exact fun _ => ih (writeReading s hr) rfl

/-- C10 witness: the invariant applied to a concrete nonempty store and one
further write. -/
theorem store_stays_nonempty_witness :
    (applyWrites (some ⟨70, none, 100⟩) [⟨80, some true, 101⟩]).isSome = true :=
  store_stays_nonempty.2.2 (some ⟨70, none, 100⟩) [⟨80, some true, 101⟩] rfl

/-- The snapshot block of `ws_handler`, main.rs lines 107-113: after
subscribing, the handler reads the store and, when a reading is present,
sends it to the new client before the forwarding task starts. -/
def wsAttach (store : Option HeartRateData) : List HeartRateData :=
  match store with
  | some hr_data => [hr_data]
  | none => []

/-- The full message sequence a WebSocket subscriber receives, embedded
from `ws_handler` (main.rs lines 104-167): the acquisition loop has already
written the readings in `published` to the store (each one before its
broadcast), the subscriber attaches, and `rest` are the readings broadcast
after its subscription.  The snapshot block sends the stored reading first;
the forwarding task then sends every later broadcast in order. -/
def wsSessionAt (published rest : List HeartRateData) : List HeartRateData :=
  wsAttach (applyWrites initialStore published) ++ rest

/-- Helper: after a nonempty write sequence the store holds exactly the
last written reading. -/
theorem applyWrites_append_last (s : Option HeartRateData)
    (ps : List HeartRateData) (r : HeartRateData) :
    applyWrites s (ps ++ [r]) = some r := by
  induction ps generalizing s with
  | nil => rfl
  | cons p ps2 ih => exact ih (writeReading s p)

/-- C7: a subscriber that attaches after the readings in `published` have
been handled receives the last published reading as its first message,
strictly before every reading broadcast after its attach; a subscriber that
attaches while nothing has been published receives nothing until the first
broadcast. -/
theorem ws_snapshot_first (published rest : List HeartRateData) :
    (∀ ps r, published = ps ++ [r] → wsSessionAt published rest = r :: rest)
  ∧ (published = [] → wsSessionAt published rest = rest) := by
  constructor
  · intro ps r hp
    rw [wsSessionAt, hp, applyWrites_append_last]
    rfl
  · intro hp
    rw [wsSessionAt, hp]
    rfl

/-- C7 witness: the theorem applied to one published reading and one later
broadcast, and to an empty store with one later broadcast. -/
theorem ws_snapshot_first_witness :
    wsSessionAt [⟨70, none, 100⟩] [⟨71, some false, 101⟩]
      = [⟨70, none, 100⟩, ⟨71, some false, 101⟩]
  ∧ wsSessionAt [] [⟨71, some false, 101⟩] = [⟨71, some false, 101⟩] :=
  ⟨(ws_snapshot_first [⟨70, none, 100⟩] [⟨71, some false, 101⟩]).1
      [] ⟨70, none, 100⟩ rfl,
   (ws_snapshot_first [] [⟨71, some false, 101⟩]).2 rfl⟩

/-- JSON values, as far as the two response bodies of the program need. -/
inductive Json where
  | str : String → Json
  | num : Nat → Json
  | bool : Bool → Json
  | null : Json
  | obj : List (String × Json) → Json

/-- serde serialization of `Option<bool>`: the boolean itself, or null. -/
def Json.ofOptBool : Option Bool → Json
  | some b => Json.bool b
  | none => Json.null

/-- Whether a JSON object carries the given key. -/
def Json.hasKey : Json → String → Bool
  | Json.obj fields, k => fields.any (fun f => f.1 == k)
  | _, _ => false

/-- The JSON body serde derives for `HeartRateData` (main.rs lines 15-20):
no rename attribute is present, so the keys are the Rust field identifiers
value, sensor_contact_detected and timestamp, in declaration order. -/
def heartRateDataJson (hr : HeartRateData) : Json :=
  Json.obj [("value", Json.num hr.value),
            ("sensor_contact_detected", Json.ofOptBool hr.sensor_contact_detected),
            ("timestamp", Json.num hr.timestamp)]

/-- An HTTP response, reduced to status code and JSON body. -/
structure HttpResponse where
  status : Nat
  body : Json

/-- The query endpoint `get_heart_rate` of main.rs lines 79-94, as a
function of the current store contents: 200 with the serialized reading
when a reading is present, 404 with the error body otherwise. -/
def get_heart_rate (heart_rate : Option HeartRateData) : HttpResponse :=
  match heart_rate with
  | some hr_data => ⟨200, heartRateDataJson hr_data⟩
  | none => ⟨404, Json.obj [("error", Json.str "No heart rate data available")]⟩

/-- C8 counterexample: with a reading stored, the success body keys are the
Rust field names; the body carries the key sensor_contact_detected and not
the key sensorContactDetected that the claim names. -/
theorem query_body_key_is_snake_case :
    Json.hasKey (get_heart_rate (some ⟨70, some true, 100⟩)).body
      "sensor_contact_detected" = true
  ∧ Json.hasKey (get_heart_rate (some ⟨70, some true, 100⟩)).body
      "sensorContactDetected" = false :=
  ⟨rfl, rfl⟩

/-- C8 amended: the endpoint answers 404 exactly when the store is empty,
with the error body, and otherwise answers 200 with the reading serialized
under the keys value, sensor_contact_detected and timestamp. -/
theorem query_endpoint_shape (store : Option HeartRateData) :
    ((get_heart_rate store).status = 404 ↔ store = none)
  ∧ (store = none →
      (get_heart_rate store).body
        = Json.obj [("error", Json.str "No heart rate data available")])
  ∧ (∀ hr, store = some hr →
      (get_heart_rate store).status = 200 ∧
      (get_heart_rate store).body
        = Json.obj [("value", Json.num hr.value),
            ("sensor_contact_detected", Json.ofOptBool hr.sensor_contact_detected),
            ("timestamp", Json.num hr.timestamp)]) := by
  cases store with
  | none =>
    refine ⟨by simp [get_heart_rate], fun _ => rfl, fun hr h => Option.noConfusion h⟩
  | some hr0 =>
    refine ⟨by simp [get_heart_rate], fun h => Option.noConfusion h, fun hr h => ?_⟩
    obtain rfl : hr0 = hr := Option.some.injEq hr0 hr ▸ h ▸ rfl
    exact ⟨rfl, rfl⟩

/-- C8 amended witness: the theorem applied to the empty store and to a
store holding a concrete reading. -/
theorem query_endpoint_shape_witness :
    (get_heart_rate none).body
      = Json.obj [("error", Json.str "No heart rate data available")]
  ∧ (get_heart_rate (some ⟨70, some true, 100⟩)).status = 200 :=
  ⟨(query_endpoint_shape none).2.1 rfl,
   ((query_endpoint_shape (some ⟨70, some true, 100⟩)).2.2
      ⟨70, some true, 100⟩ rfl).1⟩
